import Mathlib

/-
  Verification development for the logistics Telegram bot's dialogue
  state-resolution engine: state derivation, step validation, and the
  step handlers of the registration / first-order / first-offer flows.

  The JavaScript source is shallowly embedded: JS objects become
  structures, falsy/absent field values become Option.none (JS treats
  undefined, null and the empty string as absent via truthiness tests),
  machine numbers become Int/Nat, and every effectful handler becomes a
  pure function returning a result record describing the mutations and
  the i18n keys of the prompts it emits.
-/

namespace TgBot

/-- User profile subdocument of the Mongo user record.  A `none` models a
field that is absent or empty (falsy in the JS truthiness tests). -/
structure Profile where
  firstName : Option String
  lastName : Option String
  birthYear : Option Int
  phoneNumber : Option String
  role : Option String
deriving DecidableEq, Repr

/-- Driver-only subdocument (the fields touched by the dialogue flows). -/
structure DriverInfo where
  vehicleModel : Option String
  vehicleCategory : Option String
  currentLocation : Option String
deriving DecidableEq, Repr

/-- Durable user record (the fields the state machine reads and writes). -/
structure UserRecord where
  profile : Profile
  driverInfo : DriverInfo
  registrationCompleted : Bool
deriving DecidableEq, Repr

/-- `userSchema.methods.isDriver`: `this.profile.role === 'driver'`. -/
def UserRecord.isDriver (u : UserRecord) : Bool :=
  u.profile.role = some "driver"

/-- The free-form session `data` map.  The JS code stores a fixed set of
keys in it; each is modelled as an optional field (absent key = `none`). -/
structure SessData where
  basicInfoStep : Option String
  orderStep : Option String
  offerStep : Option String
  role : Option String
  firstName : Option String
  lastName : Option String
  birthYear : Option Int
  fromLoc : Option String   -- JS key: from (a Lean keyword)
  toLoc : Option String   -- JS key: to (a Lean keyword)
  description : Option String
  price : Option Int
  vehicleModel : Option String
  vehicleCategory : Option String
deriving DecidableEq, Repr

/-- The empty data map `{}`. -/
def SessData.empty : SessData :=
  { basicInfoStep := none, orderStep := none, offerStep := none, role := none,
    firstName := none, lastName := none, birthYear := none, fromLoc := none,
    toLoc := none, description := none, price := none, vehicleModel := none,
    vehicleCategory := none }

/-- Ephemeral session entry stored in Redis: `{current, step, data}`. -/
structure SessionState where
  current : String
  step : Option String
  data : SessData
deriving DecidableEq, Repr

/-- Result object of `deriveUserStateWithStep`: `{state, step, data}`. -/
structure DerivedState where
  state : String
  step : Option String
  data : SessData
deriving DecidableEq, Repr

/-- The fallback checklist of `deriveBasicInfoStep` ("Derive step from
user data"): the first field of `first_name → last_name → birth_year →
phone` absent on the profile, defaulting to `first_name`. -/
def deriveBasicInfoChecklist (user : UserRecord) : String :=
  if user.profile.firstName = none then "first_name"
  else if user.profile.lastName = none then "last_name"
  else if user.profile.birthYear = none then "birth_year"
  else if user.profile.phoneNumber = none then "phone"
  else "first_name"

/-- The hint-acceptance switch of `deriveBasicInfoStep` (lines 482-501):
a hint naming a valid step is returned only when its guard over the
current profile holds; otherwise control falls through to the checklist
derivation. -/
def deriveBasicInfoStep (user : UserRecord) (stateData : SessData) : String :=
  let fallback : String := deriveBasicInfoChecklist user
  match stateData.basicInfoStep with
  | none => fallback
  | some hint =>
    if hint = "first_name" ∧ user.profile.firstName = none then "first_name"
    else if hint = "last_name" ∧ user.profile.firstName ≠ none ∧
        user.profile.lastName = none then "last_name"
    else if hint = "birth_year" ∧ user.profile.firstName ≠ none ∧
        user.profile.lastName ≠ none ∧ user.profile.birthYear = none then "birth_year"
    else if hint = "phone" ∧ user.profile.firstName ≠ none ∧
        user.profile.lastName ≠ none ∧ user.profile.birthYear ≠ none ∧
        user.profile.phoneNumber = none then "phone"
    else fallback

/-- `deriveOrderStep(stateData)`: trust an `orderStep` hint naming a valid
step of the order list, otherwise default to `from_location`. -/
def deriveOrderStep (stateData : SessData) : String :=
  match stateData.orderStep with
  | some s =>
    if s ∈ ["from_location", "to_location", "description", "price"] then s
    else "from_location"
  | none => "from_location"

/-- `deriveOfferStep(user, stateData)`: trust an `offerStep` hint naming a
valid step of the offer list, otherwise default to `vehicle_model`. -/
def deriveOfferStep (user : UserRecord) (stateData : SessData) : String :=
  match stateData.offerStep with
  | some s =>
    if s ∈ ["vehicle_model", "vehicle_category", "current_location"] then s
    else "vehicle_model"
  | none => "vehicle_model"

/-- `deriveUserStateWithStep(user, existingStateData)`: compute the
canonical `{state, step, data}` from the durable record plus the step
hints carried by the existing session.  The guard for `basic_info` is
`!user.profile.firstName || !user.profile.phoneNumber` — it does not
inspect `lastName` or `birthYear`. -/
def deriveUserStateWithStep (user : Option UserRecord)
    (existingStateData : Option SessionState) : DerivedState :=
  let dat : SessData :=
    match existingStateData with
    | none => SessData.empty
    | some s => s.data
  match user with
  | none => { state := "role_selection", step := none, data := dat }
  | some u =>
    if u.profile.role = none then
      { state := "role_selection", step := none, data := dat }
    else if u.profile.firstName = none ∨ u.profile.phoneNumber = none then
      let step := deriveBasicInfoStep u dat
      { state := "basic_info", step := some step,
        data := { dat with basicInfoStep := some step, role := u.profile.role } }
    else if u.registrationCompleted = false then
      let nextState := if u.isDriver then "first_offer" else "first_order"
      let step :=
        if nextState = "first_offer" then deriveOfferStep u dat
        else deriveOrderStep dat
      let dat' :=
        if nextState = "first_offer" then { dat with offerStep := some step }
        else { dat with orderStep := some step }
      { state := nextState, step := some step, data := dat' }
    else
      { state := "completed", step := none, data := SessData.empty }

/-- Inbound-message context: the sender identity, the optional structured
contact payload of the message, and the localized labels the validator
compares against (`global.i18n.t(ctx, …)` lookups depend on the context's
locale, so the labels are fields of the context). -/
structure Contact where
  user_id : Int
  phone_number : String
deriving DecidableEq, Repr

structure MsgCtx where
  fromId : Int
  contact : Option Contact
  roleClientLabel : String
  roleDriverLabel : String
  categoryLightLabel : String
  categoryMediumLabel : String
  categoryHeavyLabel : String
  categorySpecialLabel : String
  skipLabel : String
deriving DecidableEq, Repr

/-- The ECMAScript `StrWhiteSpaceChar` class (WhiteSpace ∪
LineTerminator): tab, line feed, vertical tab, form feed, carriage
return, space, no-break space, the Unicode space separators, the line
and paragraph separators, and the byte-order mark.  Both `parseInt` and
`String.prototype.trim` strip exactly these characters. -/
def isJsSpace (c : Char) : Bool :=
  c = ' ' ∨ c = '\t' ∨ c = '\n' ∨ c = '\u000B' ∨ c = '\u000C' ∨ c = '\r' ∨
  c = '\u00A0' ∨ c = '\u1680' ∨ ('\u2000' ≤ c ∧ c ≤ '\u200A') ∨
  c = '\u2028' ∨ c = '\u2029' ∨ c = '\u202F' ∨ c = '\u205F' ∨
  c = '\u3000' ∨ c = '\uFEFF'

/-- Leading whitespace removal performed by JS `parseInt` before parsing. -/
def jsTrimLeft (s : String) : String :=
  ⟨s.toList.dropWhile isJsSpace⟩

/-- JS `String.prototype.trim()`: strip whitespace from both ends
(modelled over the character list so that it evaluates by reduction). -/
def jsTrim (s : String) : String :=
  ⟨((s.toList.dropWhile isJsSpace).reverse.dropWhile isJsSpace).reverse⟩

/-- Value of a list of decimal digit characters. -/
def natOfDigits (cs : List Char) : Nat :=
  cs.foldl (fun a c => a * 10 + (c.toNat - 48)) 0

/-- The decimal core of JS `parseInt`: the value of the longest decimal
digit prefix, `none` (NaN) when there is no leading digit. -/
def parseDigitsPrefix (l : List Char) : Option Int :=
  let ds := l.takeWhile (fun c => c.isDigit)
  if ds.isEmpty then none else some (natOfDigits ds : Int)

/-- Hexadecimal digit class of JS `parseInt` with radix 16. -/
def isHexDigit (c : Char) : Bool :=
  c.isDigit ∨ ('a' ≤ c ∧ c ≤ 'f') ∨ ('A' ≤ c ∧ c ≤ 'F')

/-- Numeric value of one hexadecimal digit character. -/
def hexDigitVal (c : Char) : Nat :=
  if c.isDigit then c.toNat - 48
  else if 'a' ≤ c ∧ c ≤ 'f' then c.toNat - 87
  else c.toNat - 55

/-- Value of a list of hexadecimal digit characters. -/
def natOfHexDigits (cs : List Char) : Nat :=
  cs.foldl (fun a c => a * 16 + hexDigitVal c) 0

/-- The hexadecimal core of JS `parseInt` after a stripped `0x`/`0X`
prefix: the value of the longest hex digit prefix, `none` (NaN) when no
hex digit follows the prefix (so `parseInt("0x")` is NaN). -/
def parseHexPrefix (l : List Char) : Option Int :=
  let ds := l.takeWhile isHexDigit
  if ds.isEmpty then none else some (natOfHexDigits ds : Int)

/-- The unsigned part of JS `parseInt` called with no radix argument: a
leading `0x`/`0X` switches to hexadecimal, otherwise the longest decimal
digit prefix is parsed. -/
def parseIntNoSign (l : List Char) : Option Int :=
  match l with
  | c0 :: c1 :: rest =>
    if c0 = '0' ∧ (c1 = 'x' ∨ c1 = 'X') then parseHexPrefix rest
    else parseDigitsPrefix l
  | _ => parseDigitsPrefix l

/-- JS `parseInt(s)` with no radix argument: skip leading whitespace,
accept an optional sign, strip a `0x`/`0X` prefix (switching to radix
16), then consume the longest digit prefix of the selected radix;
`none` models NaN (no digit found).  A non-numeric suffix is ignored. -/
def parseIntJS (s : String) : Option Int :=
  match (jsTrimLeft s).toList with
  | [] => none
  | c :: rest =>
    if c = '-' then (parseIntNoSign rest).map (fun n => -n)
    else if c = '+' then parseIntNoSign rest
    else parseIntNoSign (c :: rest)

/-- `messageText.replace(/\D/g, '')`: keep only the decimal digits. -/
def stripNonDigits (s : String) : String :=
  ⟨s.toList.filter (fun c => c.isDigit)⟩

/-- `KeyboardManager.getExpectedInputType(state, step)`: the string-keyed
lookup of the expected input kind; `role_selection` maps to a kind
directly (ignoring the step) and any unrecognized pair yields
`"unknown"`. -/
def getExpectedInputType (state : String) (step : Option String) : String :=
  if state = "role_selection" then "role_button"
  else if state = "basic_info" then
    if step = some "first_name" then "text"
    else if step = some "last_name" then "text"
    else if step = some "birth_year" then "number"
    else if step = some "phone" then "contact"
    else "unknown"
  else if state = "first_order" then
    if step = some "from_location" then "text"
    else if step = some "to_location" then "text_or_skip"
    else if step = some "description" then "text_or_skip"
    else if step = some "price" then "number_or_skip"
    else "unknown"
  else if state = "first_offer" then
    if step = some "vehicle_model" then "text"
    else if step = some "vehicle_category" then "category_button"
    else if step = some "current_location" then "text"
    else "unknown"
  else "unknown"

/-- `KeyboardManager.validateInput(ctx, state, step, messageText)`:
dispatch on the expected kind.  `none` for `messageText` models an absent
(or falsy empty) text; an empty string is kept distinct so the JS
truthiness guards can be mirrored exactly. -/
def validateInput (ctx : MsgCtx) (state : String) (step : Option String)
    (messageText : Option String) : Bool :=
  let expectedType := getExpectedInputType state step
  if expectedType = "text" then
    match messageText with
    | none => false
    | some t => if t = "" then false else decide (2 ≤ (jsTrim t).length)
  else if expectedType = "number" then
    match messageText with
    | none => false   -- parseInt of an absent text is NaN
    | some t => (parseIntJS t).isSome
  else if expectedType = "contact" then
    match ctx.contact with
    | none => false
    | some c => decide (c.user_id = ctx.fromId)
  else if expectedType = "role_button" then
    decide (messageText = some ctx.roleClientLabel ∨
      messageText = some ctx.roleDriverLabel)
  else if expectedType = "category_button" then
    decide (messageText = some ctx.categoryLightLabel ∨
      messageText = some ctx.categoryMediumLabel ∨
      messageText = some ctx.categoryHeavyLabel ∨
      messageText = some ctx.categorySpecialLabel)
  else if expectedType = "text_or_skip" then
    match messageText with
    | none => false
    | some t =>
      if t = "" then false
      else decide (2 ≤ (jsTrim t).length) || decide (t = ctx.skipLabel)
  else if expectedType = "number_or_skip" then
    match messageText with
    | none => false
    | some t =>
      if t = "" then false
      else (parseIntJS t).isSome || decide (t = ctx.skipLabel)
  else true

/-- `validateCurrentState(user, userState)`: the stored session is valid
iff the derived state equals the stored `current` state.  The step
component is not compared (the source comments this as future work). -/
def validateCurrentState (user : UserRecord) (userState : SessionState) : Bool :=
  let derived := deriveUserStateWithStep (some user) (some userState)
  decide (derived.state = userState.current)

/-- The reconciliation step of `userStateMiddleware` for an existing user
with an existing session entry: keep the session when
`validateCurrentState` accepts it, otherwise overwrite it with the
derived `{state, step, data}`. -/
def reconcileExistingSession (user : UserRecord)
    (existingUserState : SessionState) : SessionState :=
  let derivedState := deriveUserStateWithStep (some user) (some existingUserState)
  if validateCurrentState user existingUserState then existingUserState
  else { current := derivedState.state, step := derivedState.step,
         data := derivedState.data }

/-- The cargo subdocument of an order created by `handleFirstOrder`:
`{from: orderData.from, to: orderData.to || '', description:
orderData.description || '', price: orderData.price || 0}`. -/
structure OrderCargo where
  fromLoc : Option String
  toLoc : String
  description : String
  price : Int
deriving DecidableEq, Repr

/-- Effects of one `handleFirstOrder(ctx, messageText)` call: the session
data after the step (written back via `updateUserStateField` when it
changed), the i18n keys of the prompts replied, the cargo of a created
order if any, whether `completeRegistration` was invoked, and the
handled/pass-through flag. -/
structure FirstOrderResult where
  data : SessData
  prompts : List String
  createdOrder : Option OrderCargo
  completed : Bool
  handled : Bool
deriving DecidableEq, Repr

/-- `handleFirstOrder(ctx, messageText)` over the session's order data.
The current step is `orderData.orderStep || 'from_location'`.  Only the
`from_location` step validates its input; `to_location` and `description`
treat any non-skip truthy text as the value and always advance; `price`
strips non-digits, stores the parse only when strictly positive, creates
the order, and completes registration. -/
def handleFirstOrder (ctx : MsgCtx) (messageText : Option String)
    (orderData : SessData) : FirstOrderResult :=
  let currentStep := orderData.orderStep.getD "from_location"
  if currentStep = "from_location" then
    match messageText with
    | none =>
      { data := orderData, prompts := ["orders.enter_from"],
        createdOrder := none, completed := false, handled := true }
    | some t =>
      if t = "" ∨ (jsTrim t).length < 2 then
        { data := orderData, prompts := ["orders.enter_from"],
          createdOrder := none, completed := false, handled := true }
      else
        { data := { orderData with
                      fromLoc := some (jsTrim t),
                      orderStep := some "to_location" },
          prompts := ["orders.enter_to"],
          createdOrder := none, completed := false, handled := true }
  else if currentStep = "to_location" then
    let d0 :=
      match messageText with
      | some t =>
        if t ≠ "" ∧ jsTrim t ≠ ctx.skipLabel then { orderData with toLoc := some (jsTrim t) }
        else orderData
      | none => orderData
    { data := { d0 with orderStep := some "description" },
      prompts := ["orders.enter_description"],
      createdOrder := none, completed := false, handled := true }
  else if currentStep = "description" then
    let d0 :=
      match messageText with
      | some t =>
        if t ≠ "" ∧ jsTrim t ≠ ctx.skipLabel then { orderData with description := some (jsTrim t) }
        else orderData
      | none => orderData
    { data := { d0 with orderStep := some "price" },
      prompts := ["orders.enter_price"],
      createdOrder := none, completed := false, handled := true }
  else if currentStep = "price" then
    let d0 :=
      match messageText with
      | some t =>
        if t ≠ "" ∧ jsTrim t ≠ ctx.skipLabel then
          match parseIntJS (stripNonDigits t) with
          | some p => if 0 < p then { orderData with price := some p } else orderData
          | none => orderData
        else orderData
      | none => orderData
    let cargo : OrderCargo :=
      { fromLoc := d0.fromLoc, toLoc := d0.toLoc.getD "",
        description := d0.description.getD "", price := d0.price.getD 0 }
    { data := d0, prompts := ["orders.order_created"],
      createdOrder := some cargo, completed := true, handled := true }
  else
    { data := orderData, prompts := [], createdOrder := none,
      completed := false, handled := false }

/-- Effects of one `handleFirstOffer(ctx, messageText)` call. -/
structure FirstOfferResult where
  data : SessData
  user : UserRecord
  prompts : List String
  completed : Bool
  handled : Bool
deriving DecidableEq, Repr

/-- `handleFirstOffer(ctx, messageText)` over the session's offer data.
The current step is `offerData.offerStep || 'vehicle_model'`.  All three
steps validate their input and re-prompt on failure; `current_location`
writes the collected driver fields to the record and completes
registration. -/
def handleFirstOffer (ctx : MsgCtx) (user : UserRecord)
    (messageText : Option String) (offerData : SessData) : FirstOfferResult :=
  let currentStep := offerData.offerStep.getD "vehicle_model"
  if currentStep = "vehicle_model" then
    match messageText with
    | none =>
      { data := offerData, user := user,
        prompts := ["registration.enter_vehicle_model"],
        completed := false, handled := true }
    | some t =>
      if t = "" ∨ (jsTrim t).length < 2 then
        { data := offerData, user := user,
          prompts := ["registration.enter_vehicle_model"],
          completed := false, handled := true }
      else
        { data := { offerData with
                      vehicleModel := some (jsTrim t),
                      offerStep := some "vehicle_category" },
          user := user, prompts := ["registration.choose_vehicle_category"],
          completed := false, handled := true }
  else if currentStep = "vehicle_category" then
    let category : Option String :=
      if messageText = some ctx.categoryLightLabel then some "light"
      else if messageText = some ctx.categoryMediumLabel then some "medium"
      else if messageText = some ctx.categoryHeavyLabel then some "heavy"
      else if messageText = some ctx.categorySpecialLabel then some "special"
      else none
    match category with
    | none =>
      { data := offerData, user := user,
        prompts := ["registration.choose_vehicle_category"],
        completed := false, handled := true }
    | some cat =>
      { data := { offerData with
                    vehicleCategory := some cat,
                    offerStep := some "current_location" },
        user := user, prompts := ["registration.enter_current_location"],
        completed := false, handled := true }
  else if currentStep = "current_location" then
    match messageText with
    | none =>
      { data := offerData, user := user,
        prompts := ["registration.enter_current_location"],
        completed := false, handled := true }
    | some t =>
      if t = "" ∨ (jsTrim t).length < 2 then
        { data := offerData, user := user,
          prompts := ["registration.enter_current_location"],
          completed := false, handled := true }
      else
        { data := offerData,
          user := { user with driverInfo :=
            { vehicleModel := offerData.vehicleModel,
              vehicleCategory := offerData.vehicleCategory,
              currentLocation := some (jsTrim t) } },
          prompts := ["drivers.offer_created"],
          completed := true, handled := true }
  else
    { data := offerData, user := user, prompts := [],
      completed := false, handled := false }

/-- Effects of one `handleBasicInfo(ctx, messageText, currentStep)` call:
the possibly updated user record and session data, the values written to
the session's `current` and `step` fields (`none` = not written), the
prompt keys emitted (direct replies followed by the keyboard prompt for
the shown step), and the handled flag. -/
structure BasicInfoResult where
  user : UserRecord
  data : SessData
  dataWritten : Bool
  stepWrite : Option String
  currentWrite : Option String
  prompts : List String
  handled : Bool
deriving DecidableEq, Repr

/-- `handleBasicInfo(ctx, messageText, currentStep)`.  The step is
`currentStep || regData.basicInfoStep || 'first_name'`.  `first_name` and
`last_name` validate via `validateInput`; `birth_year` validates the
parse and the range `1900 … currentYear - 16` (the wall-clock year is an
explicit argument); `phone` requires a contact payload owned by the
sender, then commits all four profile fields and advances to the
role-dependent next state with a fresh data map. -/
def handleBasicInfo (ctx : MsgCtx) (user : UserRecord) (stateData : SessData)
    (messageText : Option String) (currentStep : Option String)
    (currentYear : Int) : BasicInfoResult :=
  let step := currentStep.getD (stateData.basicInfoStep.getD "first_name")
  if step = "first_name" then
    if validateInput ctx "basic_info" (some "first_name") messageText then
      { user := user,
        data := { stateData with
                    firstName := some (jsTrim (messageText.getD "")),
                    basicInfoStep := some "last_name" },
        dataWritten := true, stepWrite := some "last_name", currentWrite := none,
        prompts := ["registration.enter_last_name"], handled := true }
    else
      { user := user, data := stateData, dataWritten := false,
        stepWrite := none, currentWrite := none,
        prompts := ["registration.enter_first_name"], handled := true }
  else if step = "last_name" then
    if validateInput ctx "basic_info" (some "last_name") messageText then
      { user := user,
        data := { stateData with
                    lastName := some (jsTrim (messageText.getD "")),
                    basicInfoStep := some "birth_year" },
        dataWritten := true, stepWrite := some "birth_year", currentWrite := none,
        prompts := ["registration.enter_birth_year"], handled := true }
    else
      { user := user, data := stateData, dataWritten := false,
        stepWrite := none, currentWrite := none,
        prompts := ["registration.enter_last_name"], handled := true }
  else if step = "birth_year" then
    let year : Option Int :=
      match messageText with
      | none => none   -- parseInt of an absent text is NaN
      | some t => parseIntJS t
    match year with
    | none =>
      { user := user, data := stateData, dataWritten := false,
        stepWrite := none, currentWrite := none,
        prompts := ["registration.invalid_year", "registration.enter_birth_year"],
        handled := true }
    | some y =>
      if y < 1900 ∨ currentYear - 16 < y then
        { user := user, data := stateData, dataWritten := false,
          stepWrite := none, currentWrite := none,
          prompts := ["registration.invalid_year", "registration.enter_birth_year"],
          handled := true }
      else
        { user := user,
          data := { stateData with
                      birthYear := some y,
                      basicInfoStep := some "phone" },
          dataWritten := true, stepWrite := some "phone", currentWrite := none,
          prompts := ["registration.share_contact"], handled := true }
  else if step = "phone" then
    match ctx.contact with
    | none =>
      { user := user, data := stateData, dataWritten := false,
        stepWrite := none, currentWrite := none,
        prompts := ["registration.share_contact_please", "registration.share_contact"],
        handled := true }
    | some c =>
      if c.user_id ≠ ctx.fromId then
        { user := user, data := stateData, dataWritten := false,
          stepWrite := none, currentWrite := none,
          prompts := ["registration.share_your_own_contact", "registration.share_contact"],
          handled := true }
      else
        let user' : UserRecord :=
          { user with profile :=
            { user.profile with
                firstName := stateData.firstName,
                lastName := stateData.lastName,
                birthYear := stateData.birthYear,
                phoneNumber := some c.phone_number } }
        let nextStep := if user'.isDriver then "vehicle_model" else "from_location"
        { user := user',
          data :=
            if user'.isDriver then { SessData.empty with offerStep := some nextStep }
            else { SessData.empty with orderStep := some nextStep },
          dataWritten := true, stepWrite := some nextStep,
          currentWrite := some (if user'.isDriver then "first_offer" else "first_order"),
          prompts := ["registration.basic_info_completed",
            if user'.isDriver then "registration.create_first_offer"
            else "registration.create_first_order",
            if user'.isDriver then "registration.enter_vehicle_model"
            else "orders.enter_from"],
          handled := true }
  else
    { user := user, data := stateData, dataWritten := false,
      stepWrite := none, currentWrite := none, prompts := [], handled := false }

/-- Modelled from the spec: the Session Store (§6) is a key-value store
keyed by user identity holding `SessionState` entries (the `redisService`
module itself is not under src/; only its call sites are). -/
structure SessionStore where
  entries : List (Int × SessionState)
deriving DecidableEq, Repr

/-- Modelled from the spec: `get(identity) -> SessionState|absent`. -/
def SessionStore.lookup (st : SessionStore) (id : Int) : Option SessionState :=
  (st.entries.find? (fun e => e.1 = id)).map (fun e => e.2)

/-- Modelled from the spec: `updateField(identity, field, value)` updates
one field of the identity's entry in place (creating a fresh entry when
none exists, as a Redis hash-field write would). -/
def SessionStore.updateEntry (st : SessionStore) (id : Int)
    (f : SessionState → SessionState) : SessionStore :=
  if (st.lookup id).isSome then
    ⟨st.entries.map (fun e => if e.1 = id then (e.1, f e.2) else e)⟩
  else
    ⟨(id, f { current := "", step := none, data := SessData.empty }) :: st.entries⟩

/-- `completeRegistration(userId)`: set `registrationCompleted` on the
record, then update the session entry's `current` field to `"completed"`
and its `step` field to `null` via `updateUserStateField`, and delete the
separate registration-data key (which is not the session entry, so the
session store is returned with the entry still present). -/
def completeRegistration (userId : Int) (user : Option UserRecord)
    (store : SessionStore) : Option UserRecord × SessionStore :=
  let user' :=
    match user with
    | some u => some { u with registrationCompleted := true }
    | none => none
  let store' := store.updateEntry userId (fun s => { s with current := "completed" })
  let store'' := store'.updateEntry userId (fun s => { s with step := none })
  (user', store'')

/-- Fold `handleFirstOrder` over a list of inbound messages, collecting
the created orders and whether registration completion was triggered. -/
def runFirstOrder (ctx : MsgCtx) (msgs : List (Option String))
    (d : SessData) : SessData × List OrderCargo × Bool :=
  match msgs with
  | [] => (d, [], false)
  | m :: rest =>
    let r := handleFirstOrder ctx m d
    let rec2 := runFirstOrder ctx rest r.data
    (rec2.1, r.createdOrder.toList ++ rec2.2.1, r.completed || rec2.2.2)

/-! ## Spec-side definitions and shared concrete inputs -/

/-- Second definition, following the spec's words (§4.1): the first field
of the checklist `first_name → last_name → birth_year → phone` that is
absent from the profile (`none` when all four are present). -/
def specFirstMissingBasicField (u : UserRecord) : Option String :=
  if u.profile.firstName = none then some "first_name"
  else if u.profile.lastName = none then some "last_name"
  else if u.profile.birthYear = none then some "birth_year"
  else if u.profile.phoneNumber = none then some "phone"
  else none

/-- A message context with concrete labels. -/
def ctxA : MsgCtx :=
  { fromId := 1, contact := none, roleClientLabel := "Client",
    roleDriverLabel := "Driver", categoryLightLabel := "Light",
    categoryMediumLabel := "Medium", categoryHeavyLabel := "Heavy",
    categorySpecialLabel := "Special", skipLabel := "Skip" }

/-- A client record with all four profile fields present and
registration not yet completed. -/
def userClientFull : UserRecord :=
  { profile := { firstName := some "Alice", lastName := some "Smith",
                 birthYear := some 1990, phoneNumber := some "+100000",
                 role := some "client" },
    driverInfo := { vehicleModel := none, vehicleCategory := none,
                    currentLocation := none },
    registrationCompleted := false }

/-- A client record whose profile has first name and phone present but
last name and birth year absent. -/
def userLastNameMissing : UserRecord :=
  { profile := { firstName := some "Alice", lastName := none,
                 birthYear := none, phoneNumber := some "+100000",
                 role := some "client" },
    driverInfo := { vehicleModel := none, vehicleCategory := none,
                    currentLocation := none },
    registrationCompleted := false }

/-- A session positioned at the price step of `first_order` with an
empty data map. -/
def sessAtPrice : SessionState :=
  { current := "first_order", step := some "price", data := SessData.empty }

/-! ## Helper lemmas -/

/-- The hint never changes the outcome of `deriveBasicInfoStep`: every
accepted hint coincides with the checklist value. -/
theorem deriveBasicInfoStep_eq_checklist (u : UserRecord) (dat : SessData) :
    deriveBasicInfoStep u dat = deriveBasicInfoChecklist u := by
  unfold deriveBasicInfoStep deriveBasicInfoChecklist
  rcases dat with ⟨bis, _, _, _, _, _, _, _, _, _, _, _, _⟩
  rcases bis with _ | hint
  · rfl
  · simp only
    split_ifs <;> simp_all

/-- The checklist value is the spec's first missing field whenever one of
the four fields is missing. -/
theorem deriveBasicInfoChecklist_eq_spec (u : UserRecord)
    (h : u.profile.firstName = none ∨ u.profile.phoneNumber = none) :
    some (deriveBasicInfoChecklist u) = specFirstMissingBasicField u := by
  unfold deriveBasicInfoChecklist specFirstMissingBasicField
  split_ifs <;> simp_all

/-- A client record with first name and phone present, birth year and
last name present, but phone absent (so the basic_info guard fires). -/
def userPhoneMissing : UserRecord :=
  { profile := { firstName := some "Alice", lastName := some "Smith",
                 birthYear := none, phoneNumber := none,
                 role := some "client" },
    driverInfo := { vehicleModel := none, vehicleCategory := none,
                    currentLocation := none },
    registrationCompleted := false }

/-- c1 counterexample: a record with role set and `lastName`/`birthYear`
absent (but first name and phone present) is sent to `first_order`, not
`basic_info` — the guard checks only first name and phone. -/
theorem c1_counterexample :
    userLastNameMissing.profile.role ≠ none ∧
    userLastNameMissing.profile.lastName = none ∧
    userLastNameMissing.profile.birthYear = none ∧
    (deriveUserStateWithStep (some userLastNameMissing) none).state = "first_order" ∧
    (deriveUserStateWithStep (some userLastNameMissing) none).state ≠ "basic_info" := by
  refine ⟨by decide, rfl, rfl, rfl, by decide⟩

/-- c1 amended: when the role is set and first name or phone is absent,
`deriveUserStateWithStep` returns `basic_info` with the step equal to the
first missing field of the checklist, for every session hint. -/
theorem c1_amended_basic_info_first_missing (u : UserRecord)
    (sess : Option SessionState)
    (hrole : u.profile.role ≠ none)
    (hmiss : u.profile.firstName = none ∨ u.profile.phoneNumber = none) :
    (deriveUserStateWithStep (some u) sess).state = "basic_info" ∧
    (deriveUserStateWithStep (some u) sess).step = specFirstMissingBasicField u := by
  have h1 : (deriveUserStateWithStep (some u) sess).state = "basic_info" := by
    unfold deriveUserStateWithStep
    simp [if_neg hrole, if_pos hmiss]
  have h2 : (deriveUserStateWithStep (some u) sess).step
      = specFirstMissingBasicField u := by
    unfold deriveUserStateWithStep
    simp [if_neg hrole, if_pos hmiss, deriveBasicInfoStep_eq_checklist,
      deriveBasicInfoChecklist_eq_spec u hmiss]
  exact ⟨h1, h2⟩

/-- c1 witness: the amended theorem at a concrete record with phone
absent and a stale hint naming a later step. -/
theorem c1_witness :
    userPhoneMissing.profile.role ≠ none ∧
    (userPhoneMissing.profile.firstName = none ∨
      userPhoneMissing.profile.phoneNumber = none) ∧
    (deriveUserStateWithStep (some userPhoneMissing)
        (some { current := "basic_info", step := some "phone",
                data := { SessData.empty with basicInfoStep := some "phone" } })).state
      = "basic_info" ∧
    (deriveUserStateWithStep (some userPhoneMissing)
        (some { current := "basic_info", step := some "phone",
                data := { SessData.empty with basicInfoStep := some "phone" } })).step
      = specFirstMissingBasicField userPhoneMissing :=
  ⟨by decide, Or.inr rfl,
    c1_amended_basic_info_first_missing userPhoneMissing _ (by decide) (Or.inr rfl)⟩

/-- c2 counterexample: a stored session at `first_order`/`price` whose
step disagrees with the derived step (`from_location`) is kept unchanged
by the middleware reconciliation, because only the state component is
compared. -/
theorem c2_counterexample :
    reconcileExistingSession userClientFull sessAtPrice = sessAtPrice ∧
    sessAtPrice.step = some "price" ∧
    (deriveUserStateWithStep (some userClientFull) (some sessAtPrice)).step
      = some "from_location" := by
  refine ⟨rfl, rfl, rfl⟩

/-- c2 amended: the derived state is authoritative for the state
component on every message, and the session is overwritten to the full
derived position exactly when the state components disagree; a stored
step differing from the derived step under a matching state is kept. -/
theorem c2_amended_state_reconciliation (u : UserRecord) (s : SessionState) :
    (reconcileExistingSession u s).current
      = (deriveUserStateWithStep (some u) (some s)).state ∧
    (s.current ≠ (deriveUserStateWithStep (some u) (some s)).state →
      reconcileExistingSession u s =
        { current := (deriveUserStateWithStep (some u) (some s)).state,
          step := (deriveUserStateWithStep (some u) (some s)).step,
          data := (deriveUserStateWithStep (some u) (some s)).data }) := by
  unfold reconcileExistingSession validateCurrentState
  by_cases h : (deriveUserStateWithStep (some u) (some s)).state = s.current
  · simp [h]
  · simp [h]

/-- Characterization of the unsigned part of JS parseInt success: either
a `0x`/`0X` prefix followed by a hexadecimal digit, or a leading decimal
digit. -/
def hasLeadingIntNoSign (l : List Char) : Bool :=
  match l with
  | c0 :: c1 :: rest =>
    if c0 = '0' ∧ (c1 = 'x' ∨ c1 = 'X') then
      match rest with
      | [] => false
      | d :: _ => isHexDigit d
    else c0.isDigit
  | [c0] => c0.isDigit
  | [] => false

/-- Characterization of JS parseInt success: after dropping leading
whitespace the string starts with an optional sign followed by either a
decimal digit or a `0x`/`0X` prefix and a hexadecimal digit. -/
def hasLeadingInt (s : String) : Bool :=
  match (jsTrimLeft s).toList with
  | [] => false
  | c :: rest =>
    if c = '-' ∨ c = '+' then hasLeadingIntNoSign rest
    else hasLeadingIntNoSign (c :: rest)

/-- Second definition, following the spec's words: the whole raw string
parses as an integer (an optional sign followed by digits only, nothing
else). -/
def specWholeStringInt (s : String) : Bool :=
  match s.toList with
  | [] => false
  | c :: rest =>
    if c = '-' ∨ c = '+' then !rest.isEmpty && rest.all (fun d => d.isDigit)
    else (c :: rest).all (fun d => d.isDigit)

theorem parseDigitsPrefix_isSome (l : List Char) :
    (parseDigitsPrefix l).isSome =
      (match l with | [] => false | c :: _ => c.isDigit) := by
  unfold parseDigitsPrefix
  rcases l with _ | ⟨c, rest⟩
  · rfl
  · by_cases h : c.isDigit <;> simp [List.takeWhile, h]

theorem parseHexPrefix_isSome (l : List Char) :
    (parseHexPrefix l).isSome =
      (match l with | [] => false | c :: _ => isHexDigit c) := by
  unfold parseHexPrefix
  rcases l with _ | ⟨c, rest⟩
  · rfl
  · by_cases h : isHexDigit c <;> simp [List.takeWhile, h]

theorem parseIntNoSign_isSome (l : List Char) :
    (parseIntNoSign l).isSome = hasLeadingIntNoSign l := by
  unfold parseIntNoSign hasLeadingIntNoSign
  rcases l with _ | ⟨c0, _ | ⟨c1, rest⟩⟩
  · rfl
  · simp [parseDigitsPrefix_isSome]
  · by_cases h : c0 = '0' ∧ (c1 = 'x' ∨ c1 = 'X')
    · simp [h, parseHexPrefix_isSome]
    · simp [h, parseDigitsPrefix_isSome]

theorem parseIntJS_isSome_iff (s : String) :
    (parseIntJS s).isSome = hasLeadingInt s := by
  unfold parseIntJS hasLeadingInt
  rcases h : (jsTrimLeft s).toList with _ | ⟨c, rest⟩
  · rfl
  · by_cases h1 : c = '-'
    · subst h1
      simp [parseIntNoSign_isSome]
    · by_cases h2 : c = '+'
      · subst h2
        simp [h1, parseIntNoSign_isSome]
      · simp [h1, h2, parseIntNoSign_isSome]

/-- c4 counterexample: the raw string "12abc" does not parse as a whole
integer, yet the `number` kind accepts it (leading numeric parse). -/
theorem c4_counterexample :
    validateInput ctxA "basic_info" (some "birth_year") (some "12abc") = true ∧
    specWholeStringInt "12abc" = false := ⟨rfl, rfl⟩

/-- c4 amended: the `number` kind accepts an input iff it is present and
JS `parseInt` succeeds on it, i.e. iff after leading whitespace it starts
with an optional sign followed by either a decimal digit or a `0x`/`0X`
prefix and a hexadecimal digit; a non-numeric suffix (as in "12abc") is
ignored, not rejected. -/
theorem c4_amended_number_leading_parse (ctx : MsgCtx) (state : String)
    (step : Option String) (msg : Option String)
    (h : getExpectedInputType state step = "number") :
    validateInput ctx state step msg = true ↔
      ∃ t, msg = some t ∧ hasLeadingInt t = true := by
  unfold validateInput
  rw [h]
  simp only [reduceIte]
  rcases msg with _ | t
  · simp
  · simp [parseIntJS_isSome_iff]

/-- c4 witness: the amended characterization applied at the concrete
accepted input "12abc" at the birth_year step. -/
theorem c4_witness :
    getExpectedInputType "basic_info" (some "birth_year") = "number" ∧
    (validateInput ctxA "basic_info" (some "birth_year") (some "12abc") = true ↔
      ∃ t, (some "12abc" : Option String) = some t ∧ hasLeadingInt t = true) :=
  ⟨rfl, c4_amended_number_leading_parse ctxA "basic_info" (some "birth_year")
    (some "12abc") rfl⟩

/-- c7: the `contact` kind accepts an input iff the message carries a
structured contact payload whose owner identity equals the sender's; and
at the phone step a foreign contact payload leaves the record, the data
and the session position untouched and re-emits the phone prompt. -/
theorem c7_contact_validation (ctx : MsgCtx) (state : String)
    (step : Option String) (msg : Option String) (u : UserRecord)
    (dat : SessData) (cy : Int)
    (hk : getExpectedInputType state step = "contact") :
    (validateInput ctx state step msg = true ↔
      ∃ c, ctx.contact = some c ∧ c.user_id = ctx.fromId) ∧
    (∀ c, ctx.contact = some c → c.user_id ≠ ctx.fromId →
      (handleBasicInfo ctx u dat msg (some "phone") cy).user = u ∧
      (handleBasicInfo ctx u dat msg (some "phone") cy).data = dat ∧
      (handleBasicInfo ctx u dat msg (some "phone") cy).dataWritten = false ∧
      (handleBasicInfo ctx u dat msg (some "phone") cy).stepWrite = none ∧
      (handleBasicInfo ctx u dat msg (some "phone") cy).currentWrite = none ∧
      (handleBasicInfo ctx u dat msg (some "phone") cy).prompts =
        ["registration.share_your_own_contact", "registration.share_contact"]) := by
  constructor
  · unfold validateInput
    rw [hk]
    simp only [reduceIte]
    rcases h : ctx.contact with _ | c
    · simp
    · simp [h]
  · intro c hc hne
    unfold handleBasicInfo
    rw [hc]
    simp [hne]

/-- c7 witness: a concrete context carrying a well-formed contact owned
by user 2 while the sender is user 1. -/
theorem c7_witness :
    getExpectedInputType "basic_info" (some "phone") = "contact" ∧
    ((validateInput { ctxA with contact := some { user_id := 2, phone_number := "+5" } }
        "basic_info" (some "phone") none = true ↔
      ∃ c, ({ ctxA with contact := some { user_id := 2, phone_number := "+5" } } : MsgCtx).contact
          = some c ∧ c.user_id =
            ({ ctxA with contact := some { user_id := 2, phone_number := "+5" } } : MsgCtx).fromId) ∧
    (∀ c, ({ ctxA with contact := some { user_id := 2, phone_number := "+5" } } : MsgCtx).contact
          = some c →
      c.user_id ≠ ({ ctxA with contact := some { user_id := 2, phone_number := "+5" } } : MsgCtx).fromId →
      (handleBasicInfo { ctxA with contact := some { user_id := 2, phone_number := "+5" } }
          userClientFull SessData.empty none (some "phone") 2026).user = userClientFull ∧
      (handleBasicInfo { ctxA with contact := some { user_id := 2, phone_number := "+5" } }
          userClientFull SessData.empty none (some "phone") 2026).data = SessData.empty ∧
      (handleBasicInfo { ctxA with contact := some { user_id := 2, phone_number := "+5" } }
          userClientFull SessData.empty none (some "phone") 2026).dataWritten = false ∧
      (handleBasicInfo { ctxA with contact := some { user_id := 2, phone_number := "+5" } }
          userClientFull SessData.empty none (some "phone") 2026).stepWrite = none ∧
      (handleBasicInfo { ctxA with contact := some { user_id := 2, phone_number := "+5" } }
          userClientFull SessData.empty none (some "phone") 2026).currentWrite = none ∧
      (handleBasicInfo { ctxA with contact := some { user_id := 2, phone_number := "+5" } }
          userClientFull SessData.empty none (some "phone") 2026).prompts =
        ["registration.share_your_own_contact", "registration.share_contact"])) :=
  ⟨rfl, c7_contact_validation _ "basic_info" (some "phone") none userClientFull
    SessData.empty 2026 rfl⟩

/-- c8: an unrecognized state/step pair maps to the `unknown` kind and
the validator accepts every input for it (fail-open). -/
theorem c8_fail_open (state : String) (step : Option String) (ctx : MsgCtx)
    (msg : Option String)
    (h : ¬ (state = "role_selection" ∨
      (state = "basic_info" ∧ (step = some "first_name" ∨ step = some "last_name" ∨
        step = some "birth_year" ∨ step = some "phone")) ∨
      (state = "first_order" ∧ (step = some "from_location" ∨ step = some "to_location" ∨
        step = some "description" ∨ step = some "price")) ∨
      (state = "first_offer" ∧ (step = some "vehicle_model" ∨
        step = some "vehicle_category" ∨ step = some "current_location")))) :
    getExpectedInputType state step = "unknown" ∧
    validateInput ctx state step msg = true := by
  push_neg at h
  obtain ⟨h1, h2, h3, h4⟩ := h
  have hu : getExpectedInputType state step = "unknown" := by
    unfold getExpectedInputType
    split_ifs <;> first | rfl | tauto
  refine ⟨hu, ?_⟩
  unfold validateInput
  rw [hu]
  rfl

/-- c8 witness: a concrete unrecognized pair never blocks a message. -/
theorem c8_witness :
    getExpectedInputType "group_admin" (some "whatever") = "unknown" ∧
    validateInput ctxA "group_admin" (some "whatever") none = true :=
  c8_fail_open "group_admin" (some "whatever") ctxA none (by decide)

theorem deriveBasicInfoChecklist_mem (u : UserRecord) :
    deriveBasicInfoChecklist u ∈ ["first_name", "last_name", "birth_year", "phone"] := by
  unfold deriveBasicInfoChecklist
  split_ifs <;> simp

theorem deriveBasicInfoStep_mem (u : UserRecord) (dat : SessData) :
    deriveBasicInfoStep u dat ∈ ["first_name", "last_name", "birth_year", "phone"] := by
  rw [deriveBasicInfoStep_eq_checklist]
  exact deriveBasicInfoChecklist_mem u

theorem deriveOrderStep_mem (dat : SessData) :
    deriveOrderStep dat ∈ ["from_location", "to_location", "description", "price"] := by
  unfold deriveOrderStep
  rcases dat with ⟨_, os, _, _, _, _, _, _, _, _, _, _, _⟩
  rcases os with _ | s
  · simp
  · simp only
    split_ifs with h
    · exact h
    · simp

theorem deriveOfferStep_mem (u : UserRecord) (dat : SessData) :
    deriveOfferStep u dat ∈ ["vehicle_model", "vehicle_category", "current_location"] := by
  unfold deriveOfferStep
  rcases dat with ⟨_, _, ofs, _, _, _, _, _, _, _, _, _, _⟩
  rcases ofs with _ | s
  · simp
  · simp only
    split_ifs with h
    · exact h
    · simp

/-- The derived position always has one of five shapes: a stepless
`role_selection` or `completed`, or one of the three stepped states with
a step drawn from that state's fixed list. -/
theorem derive_shape (user : Option UserRecord) (sess : Option SessionState) :
    ((deriveUserStateWithStep user sess).state = "role_selection" ∧
      (deriveUserStateWithStep user sess).step = none) ∨
    ((deriveUserStateWithStep user sess).state = "basic_info" ∧
      ∃ s, (deriveUserStateWithStep user sess).step = some s ∧
        s ∈ ["first_name", "last_name", "birth_year", "phone"]) ∨
    ((deriveUserStateWithStep user sess).state = "first_order" ∧
      ∃ s, (deriveUserStateWithStep user sess).step = some s ∧
        s ∈ ["from_location", "to_location", "description", "price"]) ∨
    ((deriveUserStateWithStep user sess).state = "first_offer" ∧
      ∃ s, (deriveUserStateWithStep user sess).step = some s ∧
        s ∈ ["vehicle_model", "vehicle_category", "current_location"]) ∨
    ((deriveUserStateWithStep user sess).state = "completed" ∧
      (deriveUserStateWithStep user sess).step = none) := by
  unfold deriveUserStateWithStep
  rcases user with _ | u
  · left; exact ⟨rfl, rfl⟩
  · by_cases h1 : u.profile.role = none
    · left
      simp [h1]
    · by_cases h2 : u.profile.firstName = none ∨ u.profile.phoneNumber = none
      · right; left
        simp [h1, h2]
        simpa using deriveBasicInfoStep_mem u _
      · by_cases h3 : u.registrationCompleted = false
        · by_cases h4 : u.isDriver = true
          · right; right; right; left
            simp [h1, h2, h3, h4]
            simpa using deriveOfferStep_mem u _
          · right; right; left
            simp [h1, h2, h3, h4]
            simpa using deriveOrderStep_mem _
        · right; right; right; right
          simp [h1, h2, h3]

/-- c9: the derived step is always a member of the fixed step list of
the derived state, and is null exactly for `role_selection` and
`completed`; an unrecognized session hint is never propagated. -/
theorem c9_derived_step_membership (user : Option UserRecord)
    (sess : Option SessionState) :
    ((deriveUserStateWithStep user sess).state = "role_selection" →
      (deriveUserStateWithStep user sess).step = none) ∧
    ((deriveUserStateWithStep user sess).state = "completed" →
      (deriveUserStateWithStep user sess).step = none) ∧
    ((deriveUserStateWithStep user sess).state = "basic_info" →
      ∃ s, (deriveUserStateWithStep user sess).step = some s ∧
        s ∈ ["first_name", "last_name", "birth_year", "phone"]) ∧
    ((deriveUserStateWithStep user sess).state = "first_order" →
      ∃ s, (deriveUserStateWithStep user sess).step = some s ∧
        s ∈ ["from_location", "to_location", "description", "price"]) ∧
    ((deriveUserStateWithStep user sess).state = "first_offer" →
      ∃ s, (deriveUserStateWithStep user sess).step = some s ∧
        s ∈ ["vehicle_model", "vehicle_category", "current_location"]) ∧
    ((deriveUserStateWithStep user sess).step = none →
      (deriveUserStateWithStep user sess).state = "role_selection" ∨
      (deriveUserStateWithStep user sess).state = "completed") := by
  rcases derive_shape user sess with ⟨hs, ht⟩ | ⟨hs, ht⟩ | ⟨hs, ht⟩ | ⟨hs, ht⟩ | ⟨hs, ht⟩ <;>
    refine ⟨?_, ?_, ?_, ?_, ?_, ?_⟩ <;> intro hx <;> simp_all

/-- The order-data mutation performed by the price branch of
`handleFirstOrder` before the order is created. -/
def priceStepData (ctx : MsgCtx) (d : SessData) (msg : Option String) : SessData :=
  match msg with
  | some t =>
    if t ≠ "" ∧ jsTrim t ≠ ctx.skipLabel then
      match parseIntJS (stripNonDigits t) with
      | some p => if 0 < p then { d with price := some p } else d
      | none => d
    else d
  | none => d

/-- Evaluation of `handleFirstOrder` at the price step. -/
theorem handleFirstOrder_price_eval (ctx : MsgCtx) (d : SessData)
    (msg : Option String) (h1 : d.orderStep = some "price") :
    handleFirstOrder ctx msg d =
      { data := priceStepData ctx d msg,
        prompts := ["orders.order_created"],
        createdOrder := some
          { fromLoc := (priceStepData ctx d msg).fromLoc,
            toLoc := (priceStepData ctx d msg).toLoc.getD "",
            description := (priceStepData ctx d msg).description.getD "",
            price := (priceStepData ctx d msg).price.getD 0 },
        completed := true, handled := true } := by
  unfold handleFirstOrder priceStepData
  rw [h1]
  simp only [Option.getD_some]
  have hne1 : ¬ ("price" = "from_location") := by simp
  have hne2 : ¬ ("price" = "to_location") := by simp
  have hne3 : ¬ ("price" = "description") := by simp
  rw [if_neg hne1, if_neg hne2, if_neg hne3, if_true]

/-- c10: at the price step (with no price accumulated yet) an order is
always created with a nonnegative price; a skipped or absent input gives
price 0, and a non-skip text is first stripped of all non-digit
characters, parsed, and stored only when strictly positive (price 0
otherwise). -/
theorem c10_price_nonnegative (ctx : MsgCtx) (d : SessData)
    (msg : Option String)
    (h1 : d.orderStep = some "price") (h2 : d.price = none) :
    ∃ cargo, (handleFirstOrder ctx msg d).createdOrder = some cargo ∧
      0 ≤ cargo.price ∧
      ((msg = none ∨ msg = some "" ∨ (∃ t, msg = some t ∧ jsTrim t = ctx.skipLabel)) →
        cargo.price = 0) ∧
      (∀ t, msg = some t → t ≠ "" → jsTrim t ≠ ctx.skipLabel →
        cargo.price = (match parseIntJS (stripNonDigits t) with
          | some p => if 0 < p then p else 0
          | none => 0)) := by
  rw [handleFirstOrder_price_eval ctx d msg h1]
  refine ⟨_, rfl, ?_, ?_, ?_⟩
  · rcases msg with _ | t
    · simp [priceStepData, h2]
    · by_cases hc : t ≠ "" ∧ jsTrim t ≠ ctx.skipLabel
      · simp only [priceStepData, if_pos hc]
        rcases hp : parseIntJS (stripNonDigits t) with _ | p
        · simp [h2]
        · by_cases hpos : 0 < p
          · simp only [if_pos hpos]
            simp
            omega
          · simp only [if_neg hpos]
            simp [h2]
      · simp only [priceStepData, if_neg hc]
        simp [h2]
  · intro hk
    rcases msg with _ | t
    · simp [priceStepData, h2]
    · have hc : ¬ (t ≠ "" ∧ jsTrim t ≠ ctx.skipLabel) := by
        rcases hk with hk | hk | ⟨t2, ht2, hs2⟩
        · exact absurd hk (by simp)
        · injection hk with hk2
          subst hk2
          tauto
        · injection ht2 with ht3
          subst ht3
          tauto
      simp only [priceStepData, if_neg hc]
      simp [h2]
  · intro t2 heq hne hns
    subst heq
    have hc : t2 ≠ "" ∧ jsTrim t2 ≠ ctx.skipLabel := ⟨hne, hns⟩
    simp only [priceStepData, if_pos hc]
    rcases hp : parseIntJS (stripNonDigits t2) with _ | p
    · simp [h2]
    · by_cases hpos : 0 < p
      · simp [hpos]
      · simp [hpos, h2]

/-- c10 witness: the negative-signed, letter-laced input "-7x" at the
price step yields price 7 (the sign and letters are stripped). -/
theorem c10_witness :
    ({ SessData.empty with orderStep := some "price" } : SessData).orderStep
        = some "price" ∧
    ({ SessData.empty with orderStep := some "price" } : SessData).price = none ∧
    ∃ cargo,
      (handleFirstOrder ctxA (some "-7x")
        { SessData.empty with orderStep := some "price" }).createdOrder = some cargo ∧
      0 ≤ cargo.price ∧
      (((some "-7x" : Option String) = none ∨ (some "-7x" : Option String) = some "" ∨
        (∃ t, (some "-7x" : Option String) = some t ∧ jsTrim t = ctxA.skipLabel)) →
        cargo.price = 0) ∧
      (∀ t, (some "-7x" : Option String) = some t → t ≠ "" → jsTrim t ≠ ctxA.skipLabel →
        cargo.price = (match parseIntJS (stripNonDigits t) with
          | some p => if 0 < p then p else 0
          | none => 0)) :=
  ⟨rfl, rfl, c10_price_nonnegative ctxA _ (some "-7x") rfl rfl⟩

/-- c6: the full client first-order scenario — a valid from-location
then three skips — creates exactly one order with the supplied origin,
empty destination and description and price 0, triggers completion, and
the completed record derives to the `completed` state with the session
entry updated. -/
theorem c6_first_order_scenario :
    (runFirstOrder ctxA [some "CityA", some "Skip", some "Skip", some "Skip"]
        SessData.empty).2.1
      = [{ fromLoc := some "CityA", toLoc := "", description := "", price := 0 }] ∧
    (runFirstOrder ctxA [some "CityA", some "Skip", some "Skip", some "Skip"]
        SessData.empty).2.2 = true ∧
    (completeRegistration 1 (some userClientFull)
        ⟨[(1, sessAtPrice)]⟩).1
      = some { userClientFull with registrationCompleted := true } ∧
    (deriveUserStateWithStep
        (completeRegistration 1 (some userClientFull) ⟨[(1, sessAtPrice)]⟩).1
        none).state = "completed" := by
  refine ⟨by decide, by decide, rfl, rfl⟩

/-- c3 counterexample: the 1-character non-skip text "x" fails the
`text_or_skip` rule for the `to_location` step, yet `handleFirstOrder`
advances the step pointer to `description` and emits the next step's
prompt instead of re-prompting. -/
theorem c3_counterexample :
    validateInput ctxA "first_order" (some "to_location") (some "x") = false ∧
    (handleFirstOrder ctxA (some "x")
        { SessData.empty with orderStep := some "to_location" }).data.orderStep
      = some "description" ∧
    (handleFirstOrder ctxA (some "x")
        { SessData.empty with orderStep := some "to_location" }).data.toLoc
      = some "x" ∧
    (handleFirstOrder ctxA (some "x")
        { SessData.empty with orderStep := some "to_location" }).prompts
      = ["orders.enter_description"] := by
  refine ⟨rfl, by decide, by decide, by decide⟩

/-- c3 amended: on input failing the step's §4.2 rule the handler
re-emits the step's prompt and leaves the position unchanged for every
validated step — first_order.from_location, the three first_offer steps
and the four basic_info steps; the to_location, description and price
steps of first_order perform no validation and advance on any input. -/
theorem c3_amended_validated_steps_reprompt :
    (∀ (ctx : MsgCtx) (d : SessData) (msg : Option String),
      d.orderStep = some "from_location" →
      validateInput ctx "first_order" (some "from_location") msg = false →
      handleFirstOrder ctx msg d =
        { data := d, prompts := ["orders.enter_from"], createdOrder := none,
          completed := false, handled := true }) ∧
    (∀ (ctx : MsgCtx) (u : UserRecord) (d : SessData) (msg : Option String),
      d.offerStep = some "vehicle_model" →
      validateInput ctx "first_offer" (some "vehicle_model") msg = false →
      handleFirstOffer ctx u msg d =
        { data := d, user := u, prompts := ["registration.enter_vehicle_model"],
          completed := false, handled := true }) ∧
    (∀ (ctx : MsgCtx) (u : UserRecord) (d : SessData) (msg : Option String),
      d.offerStep = some "vehicle_category" →
      validateInput ctx "first_offer" (some "vehicle_category") msg = false →
      handleFirstOffer ctx u msg d =
        { data := d, user := u, prompts := ["registration.choose_vehicle_category"],
          completed := false, handled := true }) ∧
    (∀ (ctx : MsgCtx) (u : UserRecord) (d : SessData) (msg : Option String),
      d.offerStep = some "current_location" →
      validateInput ctx "first_offer" (some "current_location") msg = false →
      handleFirstOffer ctx u msg d =
        { data := d, user := u, prompts := ["registration.enter_current_location"],
          completed := false, handled := true }) ∧
    (∀ (ctx : MsgCtx) (u : UserRecord) (d : SessData) (msg : Option String) (cy : Int),
      validateInput ctx "basic_info" (some "first_name") msg = false →
      handleBasicInfo ctx u d msg (some "first_name") cy =
        { user := u, data := d, dataWritten := false, stepWrite := none,
          currentWrite := none, prompts := ["registration.enter_first_name"],
          handled := true }) ∧
    (∀ (ctx : MsgCtx) (u : UserRecord) (d : SessData) (msg : Option String) (cy : Int),
      validateInput ctx "basic_info" (some "last_name") msg = false →
      handleBasicInfo ctx u d msg (some "last_name") cy =
        { user := u, data := d, dataWritten := false, stepWrite := none,
          currentWrite := none, prompts := ["registration.enter_last_name"],
          handled := true }) ∧
    (∀ (ctx : MsgCtx) (u : UserRecord) (d : SessData) (msg : Option String) (cy : Int),
      validateInput ctx "basic_info" (some "birth_year") msg = false →
      handleBasicInfo ctx u d msg (some "birth_year") cy =
        { user := u, data := d, dataWritten := false, stepWrite := none,
          currentWrite := none,
          prompts := ["registration.invalid_year", "registration.enter_birth_year"],
          handled := true }) ∧
    (∀ (ctx : MsgCtx) (u : UserRecord) (d : SessData) (msg : Option String) (cy : Int),
      validateInput ctx "basic_info" (some "phone") msg = false →
      (handleBasicInfo ctx u d msg (some "phone") cy).user = u ∧
      (handleBasicInfo ctx u d msg (some "phone") cy).data = d ∧
      (handleBasicInfo ctx u d msg (some "phone") cy).dataWritten = false ∧
      (handleBasicInfo ctx u d msg (some "phone") cy).stepWrite = none ∧
      (handleBasicInfo ctx u d msg (some "phone") cy).currentWrite = none ∧
      "registration.share_contact" ∈ (handleBasicInfo ctx u d msg (some "phone") cy).prompts ∧
      (handleBasicInfo ctx u d msg (some "phone") cy).handled = true) := by
  refine ⟨?_, ?_, ?_, ?_, ?_, ?_, ?_, ?_⟩
  · intro ctx d msg hstep hval
    unfold handleFirstOrder
    rw [hstep]
    simp only [Option.getD_some, reduceIte]
    rcases msg with _ | t
    · rfl
    · have hcond : t = "" ∨ (jsTrim t).length < 2 := by
        by_cases hte : t = ""
        · exact Or.inl hte
        · right
          simp [validateInput, getExpectedInputType, hte] at hval
          omega
      rcases hcond with hc | hc
      · subst hc
        simp
      · simp [hc]
  · intro ctx u d msg hstep hval
    unfold handleFirstOffer
    rw [hstep]
    simp only [Option.getD_some, reduceIte]
    rcases msg with _ | t
    · rfl
    · have hcond : t = "" ∨ (jsTrim t).length < 2 := by
        by_cases hte : t = ""
        · exact Or.inl hte
        · right
          simp [validateInput, getExpectedInputType, hte] at hval
          omega
      rcases hcond with hc | hc
      · subst hc
        simp
      · simp [hc]
  · intro ctx u d msg hstep hval
    unfold handleFirstOffer
    rw [hstep]
    simp only [Option.getD_some, reduceIte]
    simp [validateInput, getExpectedInputType] at hval
    push_neg at hval
    obtain ⟨n1, n2, n3, n4⟩ := hval
    simp [if_neg n1, if_neg n2, if_neg n3, if_neg n4]
  · intro ctx u d msg hstep hval
    unfold handleFirstOffer
    rw [hstep]
    simp only [Option.getD_some, reduceIte]
    rcases msg with _ | t
    · rfl
    · have hcond : t = "" ∨ (jsTrim t).length < 2 := by
        by_cases hte : t = ""
        · exact Or.inl hte
        · right
          simp [validateInput, getExpectedInputType, hte] at hval
          omega
      rcases hcond with hc | hc
      · subst hc
        simp
      · simp [hc]
  · intro ctx u d msg cy hval
    unfold handleBasicInfo
    simp only [Option.getD_some, reduceIte, hval]
    rfl
  · intro ctx u d msg cy hval
    unfold handleBasicInfo
    simp only [Option.getD_some, reduceIte, hval]
    rfl
  · intro ctx u d msg cy hval
    unfold handleBasicInfo
    simp only [Option.getD_some, reduceIte]
    rcases msg with _ | t
    · rfl
    · rcases hp : parseIntJS t with _ | y
      · simp [hp]
      · simp [validateInput, getExpectedInputType, hp] at hval
  · intro ctx u d msg cy hval
    unfold handleBasicInfo
    rcases hc : ctx.contact with _ | c
    · simp [hc]
    · have hne : c.user_id ≠ ctx.fromId := by
        simp [validateInput, getExpectedInputType, hc] at hval
        exact hval
      simp [hc, hne]

theorem find?_map_update (l : List (Int × SessionState)) (id : Int)
    (f : SessionState → SessionState) :
    (l.map (fun e => if e.1 = id then (e.1, f e.2) else e)).find?
        (fun e => e.1 = id)
      = (l.find? (fun e => e.1 = id)).map (fun e => (e.1, f e.2)) := by
  induction l with
  | nil => rfl
  | cons a t ih =>
    by_cases h : a.1 = id
    · simp [List.find?_cons, h]
    · simp [List.find?_cons, h, ih]

theorem lookup_updateEntry_of_mem (st : SessionStore) (id : Int)
    (f : SessionState → SessionState) (s0 : SessionState)
    (h : st.lookup id = some s0) :
    (st.updateEntry id f).lookup id = some (f s0) := by
  unfold SessionStore.updateEntry
  rw [if_pos (by rw [h]; rfl)]
  unfold SessionStore.lookup at h ⊢
  rw [find?_map_update]
  rcases hf : st.entries.find? (fun e => e.1 = id) with _ | e
  · rw [hf] at h
    simp at h
  · rw [hf] at h
    rw [hf]
    simp at h
    simp [h]

/-- c5 counterexample: completing registration from the price step leaves
the session entry in the store, updated in place to
`{current: completed, step: null}`, instead of deleting it. -/
theorem c5_counterexample :
    ((completeRegistration 1 (some userClientFull)
        ⟨[(1, sessAtPrice)]⟩).2.lookup 1)
      = some { current := "completed", step := none, data := SessData.empty } ∧
    ((completeRegistration 1 (some userClientFull)
        ⟨[(1, sessAtPrice)]⟩).2.lookup 1).isSome = true := by
  refine ⟨rfl, rfl⟩

/-- c5 amended: `completeRegistration` marks the record complete and
updates the user's session entry in place to `{current: completed,
step: null}` (deleting only the separate registration-data key); the
session entry persists until its TTL expires rather than being deleted
on the transition to `completed`. -/
theorem c5_amended_completion_updates_entry (store : SessionStore) (id : Int)
    (u : UserRecord) (s0 : SessionState)
    (h : store.lookup id = some s0) :
    (completeRegistration id (some u) store).1
      = some { u with registrationCompleted := true } ∧
    (completeRegistration id (some u) store).2.lookup id
      = some { s0 with current := "completed", step := none } := by
  refine ⟨rfl, ?_⟩
  unfold completeRegistration
  have h1 := lookup_updateEntry_of_mem store id
    (fun s => { s with current := "completed" }) s0 h
  have h2 := lookup_updateEntry_of_mem
    (store.updateEntry id (fun s => { s with current := "completed" })) id
    (fun s => { s with step := none }) _ h1
  exact h2

/-- c5 witness: the amended theorem at the concrete one-entry store. -/
theorem c5_witness :
    (SessionStore.lookup ⟨[(1, sessAtPrice)]⟩ 1 = some sessAtPrice) ∧
    (completeRegistration 1 (some userClientFull) ⟨[(1, sessAtPrice)]⟩).1
      = some { userClientFull with registrationCompleted := true } ∧
    (completeRegistration 1 (some userClientFull) ⟨[(1, sessAtPrice)]⟩).2.lookup 1
      = some { sessAtPrice with current := "completed", step := none } :=
  ⟨rfl, c5_amended_completion_updates_entry ⟨[(1, sessAtPrice)]⟩ 1
    userClientFull sessAtPrice rfl⟩

end TgBot
